import Mathlib

/-!
Verification of the dJetLawyer chatbot backend's chat pipeline.

Shallow embedding of the chat-session resolver, anonymous rate limiting,
anonymous→durable chat migration, token-budgeted history preparation,
attachment processing and response orchestration, translated from
`app/api/chatbot.py`, `app/services/chat_management.py`,
`app/services/chat_processing.py`, `app/services/chat.py`,
`app/services/anonymous_chat.py` and `app/services/file_storage.py`.

External collaborators (the tiktoken tokenizer, the title/summary/answer
LLM chains, file reading and base64 encoding) are modelled as oracle
fields of an `Env` record; the durable database and the Redis store are
explicit state threaded through each function.  Machine-generated UUIDs
are modelled as a `next_id` counter; `created_at` ordering of durable
messages is their insertion order in the append-only message table.
-/

set_option maxRecDepth 100000

namespace DJet

/-- Python's `str.startswith`, on the character lists of the strings
(kept kernel-reducible for concrete evaluation). -/
def starts_with (s p : String) : Bool := p.data.isPrefixOf s.data

/-- A source citation, `{"url": ...}` (`app/schemas/chatbot.py` `Source`). -/
structure Source where
  url : String
deriving Repr, DecidableEq

/-- Attachment metadata stored on an ephemeral human message
(`chat_processing.py` lines 401-408). -/
structure AttMeta where
  id : String
  file_name : String
  file_type : String
  file_size : Nat
deriving Repr, DecidableEq

/-- A message dict as held in the ephemeral (Redis) store and as the
normalized history representation (role/content/sources, plus the
attachment metadata an anonymous human message may carry).  The code's
dual dict-vs-object representation is normalized to this one record. -/
structure Msg where
  role : String
  content : String
  sources : Option (List Source) := none
  attachments : Option (List AttMeta) := none
deriving Repr, DecidableEq

/-- A durable `Message` row (`app/models/chat.py`): `id` and insertion
order stand in for the generated UUID and `created_at`. -/
structure DMsg where
  id : Nat
  chat_id : Nat
  role : String
  content : String
  sources : Option (List Source)
deriving Repr, DecidableEq

/-- Normalization of a durable message row to the common history record. -/
def DMsg.toMsg (m : DMsg) : Msg :=
  { role := m.role, content := m.content, sources := m.sources, attachments := none }

/-- A durable `Chat` row: `user_id` is `none` for a chat saved without an
owner (shared anonymous chats). -/
structure ChatRec where
  id : Nat
  user_id : Option Nat
  title : String
deriving Repr, DecidableEq

/-- A durable `Attachment` row (`app/models/attachment.py`). -/
structure AttRec where
  id : Nat
  file_name : String
  file_type : String
  file_path : String
  file_size : Nat
  message_id : Option Nat
deriving Repr, DecidableEq

/-- A `TokenUsage` row (`app/models/token_usage.py`). -/
structure UsageRec where
  user_id : Nat
  tokens_used : Nat
deriving Repr, DecidableEq

/-- The durable (relational) store. -/
structure DB where
  chats : List ChatRec
  messages : List DMsg
  attachments : List AttRec
  usage : List UsageRec

/-- The ephemeral (Redis) store: per-session send counters and per
(session, chat) message lists (`app/services/anonymous_chat.py`).
Time-to-live refreshing is not modelled (no clock in the embedding). -/
structure Ephemeral where
  counts : String → Nat
  chats : String → Nat → List Msg

/-- The full mutable state of one request: durable DB, Redis, and the
supply of fresh identifiers (modelling `uuid.uuid4()` and row ids). -/
structure St where
  db : DB
  eph : Ephemeral
  next_id : Nat

/-- Draw a fresh identifier (models `uuid.uuid4()`). -/
def fresh_id (st : St) : Nat × St :=
  (st.next_id, { st with next_id := st.next_id + 1 })

/-- `get_anonymous_message_count` (`anonymous_chat.py` lines 11-14). -/
def get_anonymous_message_count (e : Ephemeral) (session_id : String) : Nat :=
  e.counts session_id

/-- `increment_anonymous_message_count` (`anonymous_chat.py` lines 16-22):
Redis `INCR` (creating the key at 0 when absent). -/
def increment_anonymous_message_count (e : Ephemeral) (session_id : String) : Ephemeral :=
  { e with counts := fun s => if s = session_id then e.counts session_id + 1 else e.counts s }

/-- `get_anonymous_chat_messages` (`anonymous_chat.py` lines 24-31):
an absent key yields `[]`. -/
def get_anonymous_chat_messages (e : Ephemeral) (session_id : String) (chat_id : Nat) :
    List Msg :=
  e.chats session_id chat_id

/-- `save_anonymous_chat_messages` (`anonymous_chat.py` lines 33-39). -/
def save_anonymous_chat_messages (e : Ephemeral) (session_id : String) (chat_id : Nat)
    (messages : List Msg) : Ephemeral :=
  { e with chats := fun s c =>
      if s = session_id ∧ c = chat_id then messages else e.chats s c }

/-- `get_chat` (`app/services/chat.py` lines 30-31). -/
def get_chat (db : DB) (chat_id : Nat) : Option ChatRec :=
  db.chats.find? (fun c => c.id = chat_id)

/-- `create_chat` (`app/services/chat.py` lines 9-25): uses the custom id
when one is supplied, else a generated one. -/
def create_chat (st : St) (user_id : Nat) (title : String) (custom_id : Option Nat) :
    ChatRec × St :=
  match custom_id with
  | some cid =>
      let c : ChatRec := { id := cid, user_id := some user_id, title := title }
      (c, { st with db := { st.db with chats := st.db.chats ++ [c] } })
  | none =>
      let c : ChatRec := { id := st.next_id, user_id := some user_id, title := title }
      (c, { st with next_id := st.next_id + 1,
                    db := { st.db with chats := st.db.chats ++ [c] } })

/-- `add_message` (`app/services/chat.py` lines 33-40): appends one
durable message row and returns it. -/
def add_message (st : St) (chat_id : Nat) (role content : String)
    (sources : Option (List Source)) : DMsg × St :=
  let m : DMsg := { id := st.next_id, chat_id := chat_id, role := role,
                    content := content, sources := sources }
  (m, { st with next_id := st.next_id + 1,
                db := { st.db with messages := st.db.messages ++ [m] } })

/-- `get_chat_messages` (`app/services/chat.py` lines 42-43): the chat's
messages in `created_at` (= insertion) order. -/
def get_chat_messages (db : DB) (chat_id : Nat) : List DMsg :=
  db.messages.filter (fun m => m.chat_id = chat_id)

/-- Replaying a list of normalized messages into a chat with `add_message`
(the loops at `chat_management.py` lines 158-163 and 85-89). -/
def add_messages (st : St) (chat_id : Nat) (msgs : List Msg) : St :=
  msgs.foldl (fun s m => (add_message s chat_id m.role m.content m.sources).2) st

/-- A model-ready content block produced by the attachment processor:
a text block, an `image_url` block carrying a data URI, or a `media`
block carrying a MIME type and base64 data. -/
inductive Block where
  | text (t : String)
  | image_url (url : String)
  | media (mime_type : String) (data : String)
deriving Repr, DecidableEq

/-- A context document returned by the retrieval chain: only its
`metadata` mapping matters to the core (source extraction). -/
structure Doc where
  metadata : List (String × String)
deriving Repr, DecidableEq

/-- The retrieval chain's result: `{"answer": ..., "context": [...]}`. -/
structure RagResult where
  answer : String
  context : List Doc
deriving Repr, DecidableEq

/-- A LangChain history message (`HumanMessage` / `AIMessage` /
`SystemMessage`), each carrying its content string. -/
inductive LCMsg where
  | human (content : String)
  | ai (content : String)
  | system (content : String)
deriving Repr, DecidableEq

/-- The content of a LangChain history message. -/
def LCMsg.content : LCMsg → String
  | .human c => c
  | .ai c => c
  | .system c => c

/-- A previous message from a shared chat as sent by the client
(`chat_request.previous_messages`): the code reads only
`msg.get('role', '')` and `msg.get('content', '')`. -/
structure PrevMsg where
  role : String
  content : String
deriving Repr, DecidableEq

/-- The request body the chat endpoint receives
(`app/schemas/chatbot.py` `ChatRequest`).  The raw `chat_id` string is
pre-split by `uuid.UUID` parsability: `valid` carries a parsed id,
`malformed` a string that fails to parse (`chatbot.py` lines 115-118).
An absent or `None` `previous_messages` is the empty list. -/
inductive RawId where
  | valid (id : Nat)
  | malformed (raw : String)
deriving Repr, DecidableEq

structure ChatRequest where
  message : String
  chat_id : Option RawId
  previous_messages : List PrevMsg := []
deriving Repr, DecidableEq

/-- The response body (`app/schemas/chatbot.py` `ChatResponse`):
`limit_reached` defaults to `False` in the pydantic schema. -/
structure ChatResponse where
  chat_id : String
  answer : String
  sources : List Source
  limit_reached : Bool := false
deriving Repr, DecidableEq

/-- An `HTTPException`: status code and detail string. -/
structure HttpError where
  status : Nat
  detail : String
deriving Repr, DecidableEq

/-- `str(HTTPException)` (starlette renders `"{status_code}: {detail}"`),
as used by the endpoint's catch-all handler (`chatbot.py` line 241). -/
def http_error_str (e : HttpError) : String :=
  toString e.status ++ ": " ++ e.detail

/-- The external collaborators, as deterministic oracles:
the tiktoken tokenizer, the title / summary / answer LLM chains, the
per-attachment description LLM calls (which may fail), per-format
document text reading (file I/O plus PyPDF2 or python-docx, which may
fail), and base64 encoding of a stored file. -/
structure Env where
  count_tokens : String → Nat
  title_chain : String → String
  summary_chain : String → String
  rag_chain : String → List LCMsg → List (String × List Block) → RagResult
  doc_summary : String → String → Except String String
  image_description : String → Block → Except String String
  audio_transcription : String → Block → Except String String
  read_document : String → Except String String
  encode_file_to_base64 : String → String

/-- The summed token count of a message list's content fields
(`chat_processing.py` line 72). -/
def sum_tokens (env : Env) (messages : List Msg) : Nat :=
  (messages.map (fun m => env.count_tokens m.content)).sum

/-- The summed token count over prepared LangChain history
(`chat_processing.py` line 380). -/
def sum_lc_tokens (env : Env) (chat_history : List LCMsg) : Nat :=
  (chat_history.map (fun m => env.count_tokens m.content)).sum

/-- `summarize_chat_history` (`chat_processing.py` lines 35-60): format
the history as `role: content` lines and invoke the summary chain. -/
def summarize_chat_history (env : Env) (chat_history : List Msg) : String :=
  env.summary_chain
    (String.intercalate "\n" (chat_history.map (fun m => m.role ++ ": " ++ m.content)))

/-- `prepare_chat_history` (`chat_processing.py` lines 62-99): when the
summed tokens exceed 1500, substitute a single summary `HumanMessage`;
otherwise convert each message by role. -/
def prepare_chat_history (env : Env) (messages : List Msg) : List LCMsg :=
  let total_tokens := sum_tokens env messages
  if 1500 < total_tokens then
    [LCMsg.human ("Chat history summary: " ++ summarize_chat_history env messages)]
  else
    messages.map (fun m =>
      if m.role = "human" then LCMsg.human m.content
      else if m.role = "assistant" then LCMsg.ai m.content
      else LCMsg.system m.content)

/-- `extract_text_from_document` (`file_storage.py` lines 169-216): the
per-format readers are the `read_document` oracle; any raised error is
caught and degraded to a placeholder string. -/
def extract_text_from_document (env : Env) (file_path : String) : String :=
  match env.read_document file_path with
  | .ok t => t
  | .error _ => "[Error extracting text from document]"

/-- An entry of `attachment_content_map` (`chat_processing.py` lines
243, 256, 267): the attachment's kind tag, file name, and processed
content as handed to summary generation. -/
inductive MappedContent where
  | document (file_name : String) (text : String)
  | image (file_name : String) (data : Block)
  | audio (file_name : String) (data : Block)
deriving Repr, DecidableEq

/-- `generate_attachment_summary` (`chat_processing.py` lines 101-187):
each kind invokes its LLM call; a failure degrades to the kind-specific
placeholder description.  (The outer `except` at lines 184-187 is
unreachable because each inner branch already catches.) -/
def generate_attachment_summary (env : Env) : MappedContent → String
  | .document file_name text =>
      match env.doc_summary file_name text with
      | .ok summary => summary
      | .error _ => "Document '" ++ file_name ++ "' (unable to generate summary)"
  | .image file_name data =>
      match env.image_description file_name data with
      | .ok description => description
      | .error _ => "Image '" ++ file_name ++ "' (unable to generate description)"
  | .audio file_name data =>
      match env.audio_transcription file_name data with
      | .ok transcription => transcription
      | .error _ => "Audio file '" ++ file_name ++ "' (audio processing not available)"

/-- An attachment reference in the request (`AttachmentData` in
`app/schemas/chatbot.py`), its id already parsed. -/
structure AttachmentData where
  id : Nat
  file_name : String
  file_type : String
  file_size : Nat
deriving Repr, DecidableEq

/-- The accumulator of `process_attachments`' loop: resolved records,
document text blocks, image blocks, audio blocks, and the content map. -/
structure AttAcc where
  for_message : List AttRec
  text_content : List String
  image_content : List Block
  audio_content : List Block
  content_map : List MappedContent
deriving Repr, DecidableEq

/-- One iteration of the loop in `process_attachments`
(`chat_processing.py` lines 216-267): a reference whose stored record is
missing is skipped (diagnostic print only); otherwise the record is kept
for message association and processed by MIME category. -/
def process_attachment_step (env : Env) (db : DB) (acc : AttAcc)
    (ad : AttachmentData) : AttAcc :=
  match db.attachments.find? (fun a => a.id = ad.id) with
  | none => acc
  | some attachment =>
      let acc := { acc with for_message := acc.for_message ++ [attachment] }
      if starts_with attachment.file_type "image/" then
        let base64_image := env.encode_file_to_base64 attachment.file_path
        let image_data := Block.image_url
          ("data:" ++ attachment.file_type ++ ";base64," ++ base64_image)
        { acc with image_content := acc.image_content ++ [image_data],
                   content_map := acc.content_map ++
                     [.image attachment.file_name image_data] }
      else if starts_with attachment.file_type "audio/" then
        let base64_audio := env.encode_file_to_base64 attachment.file_path
        let audio_data := Block.media attachment.file_type base64_audio
        { acc with audio_content := acc.audio_content ++ [audio_data],
                   content_map := acc.content_map ++
                     [.audio attachment.file_name audio_data] }
      else
        let document_text := extract_text_from_document env attachment.file_path
        if document_text ≠ "" then
          let formatted_text := "\nContent from document '" ++ attachment.file_name
            ++ "':\n" ++ document_text
          { acc with text_content := acc.text_content ++ [formatted_text],
                     content_map := acc.content_map ++
                       [.document attachment.file_name document_text] }
        else acc

/-- `process_attachments` (`chat_processing.py` lines 189-298): returns
`(attachment_content, attachment_summaries, attachments_for_message)`.
The summarization LLM is always supplied by `process_chat`, so summaries
are generated for every mapped content entry. -/
def process_attachments (env : Env) (db : DB) (attachments : List AttachmentData) :
    List (String × List Block) × List String × List AttRec :=
  let acc := attachments.foldl (process_attachment_step env db)
    { for_message := [], text_content := [], image_content := [],
      audio_content := [], content_map := [] }
  let attachment_content : List (String × List Block) :=
    (if acc.text_content ≠ [] then
      [("human", [Block.text (String.intercalate "\n" acc.text_content)])] else []) ++
    (if acc.image_content ≠ [] then [("human", acc.image_content)] else []) ++
    (if acc.audio_content ≠ [] then [("human", acc.audio_content)] else [])
  let attachment_summaries := acc.content_map.map (generate_attachment_summary env)
  (attachment_content, attachment_summaries, acc.for_message)

/-- The chat identity a resolver branch hands on: a durable row for
authenticated flows, or a bare virtual id dict `{"id": ...}` for
anonymous flows. -/
inductive ChatObj where
  | durable (c : ChatRec)
  | anon (id : Nat)
deriving Repr, DecidableEq

/-- `get_chat_id` (`chat_processing.py` lines 22-27): the id from either
a dict or a model object. -/
def ChatObj.get_chat_id : ChatObj → Nat
  | .durable c => c.id
  | .anon i => i

/-- `(attachment_content, attachment_summaries, attachments_for_message)`
as computed by `process_chat` (`chat_processing.py` lines 331-350):
attachments are only processed when the request carries some. -/
def attachment_results (env : Env) (db : DB) (attachments : List AttachmentData) :
    List (String × List Block) × List String × List AttRec :=
  if attachments ≠ [] then process_attachments env db attachments else ([], [], [])

/-- The `message += "\n\nAttachment summaries:\n" + ...` augmentation
(`chat_processing.py` lines 352-354). -/
def augment_message (message : String) (attachment_summaries : List String) : String :=
  if attachment_summaries ≠ [] then
    message ++ "\n\nAttachment summaries:\n" ++ String.intercalate "\n" attachment_summaries
  else message

/-- The sources comprehension over the result context
(`chat_processing.py` lines 364-367): one entry per context document,
`metadata.get('source', 'Unknown')`. -/
def extract_sources (context : List Doc) : List Source :=
  context.map (fun doc => { url := (doc.metadata.lookup "source").getD "Unknown" })

/-- `process_chat` (`app/services/chat_processing.py` lines 300-432):
prepare the bounded history, process attachments, augment the message
with attachment summaries, invoke the retrieval chain, extract sources,
then persist durably (authenticated: two messages, attachment
`message_id` links, one `TokenUsage` row) or ephemerally (anonymous:
the history plus the two new message dicts, no usage row).  The
endpoint-local copy in `app/api/chatbot.py` lines 244-319 is this
function with `attachments = None`. -/
def process_chat (env : Env) (st : St) (current_user : Option Nat)
    (anonymous_session_id : String) (chat : ChatObj) (messages : List Msg)
    (message : String) (attachments : List AttachmentData) : St × ChatResponse :=
  let chat_history := prepare_chat_history env messages
  let r := attachment_results env st.db attachments
  let attachment_content := r.1
  let attachment_summaries := r.2.1
  let attachments_for_message := r.2.2
  let message := augment_message message attachment_summaries
  let result := env.rag_chain message chat_history attachment_content
  let sources := extract_sources result.context
  match current_user with
  | some uid =>
      let hm := add_message st chat.get_chat_id "human" message none
      let human_message := hm.1
      let st := hm.2
      let st := (add_message st chat.get_chat_id "assistant" result.answer (some sources)).2
      let linked_attachments := st.db.attachments.map (fun a =>
        if attachments_for_message.any (fun r => r.id = a.id) then
          { a with message_id := some human_message.id }
        else a)
      let st := { st with db := { st.db with attachments := linked_attachments } }
      let chat_history_tokens := sum_lc_tokens env chat_history
      let tokens_used := env.count_tokens message + env.count_tokens result.answer
        + chat_history_tokens
      let st := { st with db := { st.db with usage := st.db.usage ++
        [{ user_id := uid, tokens_used := tokens_used }] } }
      (st, { chat_id := toString chat.get_chat_id, answer := result.answer,
             sources := sources, limit_reached := false })
  | none =>
      let attachments_data := attachments_for_message.map (fun a =>
        ({ id := toString a.id, file_name := a.file_name, file_type := a.file_type,
           file_size := a.file_size } : AttMeta))
      let new_messages := messages ++
        [ { role := "human", content := message, sources := none,
            attachments := if attachments_data ≠ [] then some attachments_data else none },
          { role := "assistant", content := result.answer, sources := some sources,
            attachments := none } ]
      let saved := save_anonymous_chat_messages st.eph anonymous_session_id
        chat.get_chat_id new_messages
      let st := { st with eph := saved }
      (st, { chat_id := toString chat.get_chat_id, answer := result.answer,
             sources := sources, limit_reached := false })

/-- The terminal limit response (`chat_management.py` lines 42-47,
`chatbot.py` lines 98-103). -/
def limit_response : ChatResponse :=
  { chat_id := "limit_reached",
    answer := "Message limit reached. Please login to continue.",
    sources := [], limit_reached := true }

/-- `validate_anonymous_user` (`chat_management.py` lines 25-51) and the
inline check at `chatbot.py` lines 90-106: a missing/empty session id is
a 400; at 5 or more sent messages the limit response is returned without
incrementing; below 5 the counter is incremented once and resolution
proceeds. -/
def validate_anonymous_user (e : Ephemeral) (anonymous_session_id : String) :
    Except HttpError (Ephemeral × Option ChatResponse) :=
  if anonymous_session_id = "" then
    .error { status := 400, detail := "Anonymous session ID required" }
  else if 5 ≤ get_anonymous_message_count e anonymous_session_id then
    .ok (e, some limit_response)
  else
    .ok (increment_anonymous_message_count e anonymous_session_id, none)

/-- The title of a transferred chat (`chat_management.py` lines 150-152):
the default, overridden by the first message's first 30 characters plus
an ellipsis when that first message has role `human`. -/
def transfer_title (anon_messages : List Msg) : String :=
  match anon_messages with
  | m :: _ =>
      if m.role = "human" then m.content.take 30 ++ "..."
      else "Transferred from anonymous chat"
  | [] => "Transferred from anonymous chat"

/-- `transfer_anonymous_chat` (`chat_management.py` lines 118-176), also
inlined at `chatbot.py` lines 168-206: use the user's own chat if it
exists; otherwise migrate the anonymous record under (session, chat id)
when it has messages (create a durable chat under the requested id,
replay every message, reload the durable history); otherwise fall back
to a fresh titled chat. -/
def transfer_anonymous_chat (env : Env) (st : St) (current_user : Nat)
    (request_message : String) (request_chat_id : Nat)
    (anonymous_session_id : String) : St × ChatObj × List DMsg × Bool :=
  let transfer : St × ChatObj × List DMsg × Bool :=
    let anon_messages := get_anonymous_chat_messages st.eph anonymous_session_id
      request_chat_id
    if anon_messages ≠ [] then
      let chat_title := transfer_title anon_messages
      let c := create_chat st current_user chat_title (some request_chat_id)
      let chat := c.1
      let st := add_messages c.2 chat.id anon_messages
      (st, .durable chat, get_chat_messages st.db chat.id, true)
    else
      let chat_title := env.title_chain request_message
      let c := create_chat st current_user chat_title none
      (c.2, .durable c.1, [], false)
  match get_chat st.db request_chat_id with
  | none => transfer
  | some chat =>
      if chat.user_id = some current_user then
        (st, .durable chat, get_chat_messages st.db chat.id, false)
      else transfer

/-- `handle_existing_chat` (`chat_management.py` lines 178-217), also
inlined at `chatbot.py` lines 165-221: dispatch on actor and header for
a well-formed chat id.  Durable histories are normalized to the common
message record on the way out. -/
def handle_existing_chat (env : Env) (st : St) (current_user : Option Nat)
    (anonymous_session_id : Option String) (request_message : String)
    (request_chat_id : Nat) : Except HttpError (St × ChatObj × List Msg × Bool) :=
  match current_user, anonymous_session_id with
  | some uid, some s =>
      let r := transfer_anonymous_chat env st uid request_message request_chat_id s
      .ok (r.1, r.2.1, r.2.2.1.map DMsg.toMsg, r.2.2.2)
  | some uid, none =>
      match get_chat st.db request_chat_id with
      | none => .error { status := 404, detail := "Chat not found" }
      | some chat =>
          if chat.user_id = some uid then
            .ok (st, .durable chat, (get_chat_messages st.db chat.id).map DMsg.toMsg, false)
          else .error { status := 404, detail := "Chat not found" }
  | none, anonymous_session_id =>
      let s := anonymous_session_id.getD ""
      let messages := get_anonymous_chat_messages st.eph s request_chat_id
      if messages = [] then
        let f := fresh_id st
        .ok (f.2, .anon f.1, [], false)
      else .ok (st, .anon request_chat_id, messages, false)

/-- `create_new_chat` (`chat_management.py` lines 53-116), also inlined
in the malformed-chat-id branch at `chatbot.py` lines 119-159:
authenticated with previous messages → durable chat titled from the
first previous message, replayed and reloaded; authenticated without →
fresh titled chat; anonymous → fresh virtual id, previous messages (if
any) materialized in memory only. -/
def create_new_chat (env : Env) (st : St) (current_user : Option Nat)
    (request_message : String) (previous_messages : List PrevMsg) :
    St × ChatObj × List Msg :=
  match current_user with
  | some uid =>
      if previous_messages ≠ [] then
        let chat_title := match previous_messages with
          | m :: _ => m.content.take 30 ++ "..."
          | [] => "Continued from shared chat"
        let c := create_chat st uid chat_title none
        let st := previous_messages.foldl
          (fun s m => (add_message s c.1.id m.role m.content none).2) c.2
        (st, .durable c.1, (get_chat_messages st.db c.1.id).map DMsg.toMsg)
      else
        let c := create_chat st uid (env.title_chain request_message) none
        (c.2, .durable c.1, [])
  | none =>
      let f := fresh_id st
      (f.2, .anon f.1,
        previous_messages.map (fun p => ({ role := p.role, content := p.content } : Msg)))

/-- `handle_new_chat_session` (`chat_management.py` lines 219-247), also
inlined at `chatbot.py` lines 222-232: no chat id supplied. -/
def handle_new_chat_session (env : Env) (st : St) (current_user : Option Nat)
    (request_message : String) : St × ChatObj × List Msg :=
  match current_user with
  | some uid =>
      let c := create_chat st uid (env.title_chain request_message) none
      (c.2, .durable c.1, [])
  | none =>
      let f := fresh_id st
      (f.2, .anon f.1, [])

/-- Python truthiness of the `x-anonymous-session-id` header: a missing
or empty header is absent. -/
def header_value (header : Option String) : Option String :=
  match header with
  | none => none
  | some s => if s = "" then none else some s

/-- The resolver dispatch of the endpoint (`chatbot.py` lines 112-237)
after the anonymous gate: branch on chat-id presence and well-formedness,
then hand (chat identity, history) to `process_chat`.  The endpoint
passes no attachments to its local `process_chat` (the request's
`attachments` field is unused there). -/
def chat_resolve (env : Env) (st : St) (current_user : Option Nat)
    (anonymous_session_id : Option String) (req : ChatRequest) :
    St × Except HttpError ChatResponse :=
  let sid := anonymous_session_id.getD ""
  match req.chat_id with
  | none =>
      let h := handle_new_chat_session env st current_user req.message
      let p := process_chat env h.1 current_user sid h.2.1 h.2.2 req.message []
      (p.1, .ok p.2)
  | some (.malformed _) =>
      let h := create_new_chat env st current_user req.message req.previous_messages
      let p := process_chat env h.1 current_user sid h.2.1 h.2.2 req.message []
      (p.1, .ok p.2)
  | some (.valid cid) =>
      match handle_existing_chat env st current_user anonymous_session_id
          req.message cid with
      | .error e => (st, .error e)
      | .ok h =>
          let p := process_chat env h.1 current_user sid h.2.1 h.2.2.1 req.message []
          (p.1, .ok p.2)

/-- The body of the `/chat` endpoint (`chatbot.py` lines 82-237): the
anonymous precondition and rate gate (missing session id → 400; counter
at 5 or more → terminal limit response without increment; below →
increment once), then resolution and processing. -/
def chat_body (env : Env) (st : St) (current_user : Option Nat)
    (header : Option String) (req : ChatRequest) :
    St × Except HttpError ChatResponse :=
  let sid := header_value header
  match current_user with
  | none =>
      match sid with
      | none => (st, .error { status := 400, detail := "Anonymous session ID required" })
      | some s =>
          if 5 ≤ get_anonymous_message_count st.eph s then (st, .ok limit_response)
          else
            let st := { st with eph := increment_anonymous_message_count st.eph s }
            chat_resolve env st none (some s) req
  | some uid => chat_resolve env st (some uid) sid req

/-- The `/chat` endpoint (`chatbot.py` lines 75-241): the catch-all
handler re-raises any failure as a 500 whose detail is the string form
of the original exception. -/
def chat_endpoint (env : Env) (st : St) (current_user : Option Nat)
    (header : Option String) (req : ChatRequest) :
    St × Except HttpError ChatResponse :=
  match chat_body env st current_user header req with
  | (st, .error e) => (st, .error { status := 500, detail := http_error_str e })
  | ok => ok

/-! ### Helper lemmas -/

/-- `process_chat` never touches the per-session send counters: the
authenticated branch writes only durable tables, the anonymous branch
only the per-(session, chat) message key. -/
lemma process_chat_eph_counts (env : Env) (st : St) (cu : Option Nat) (sid : String)
    (chat : ChatObj) (messages : List Msg) (message : String)
    (atts : List AttachmentData) :
    ((process_chat env st cu sid chat messages message atts).1).eph.counts
      = st.eph.counts := by
  cases cu <;> rfl

/-- Every response `process_chat` builds has `limit_reached = false`
(the pydantic default). -/
lemma process_chat_limit_reached (env : Env) (st : St) (cu : Option Nat) (sid : String)
    (chat : ChatObj) (messages : List Msg) (message : String)
    (atts : List AttachmentData) :
    (process_chat env st cu sid chat messages message atts).2.limit_reached = false := by
  cases cu <;> rfl

/-- Resolution for an anonymous actor always succeeds, leaves the send
counters untouched, and produces a `limit_reached = false` response. -/
lemma chat_resolve_anon (env : Env) (st : St) (s : String) (req : ChatRequest) :
    ∃ st2 resp, chat_resolve env st none (some s) req = (st2, .ok resp) ∧
      st2.eph.counts = st.eph.counts ∧ resp.limit_reached = false := by
  cases hid : req.chat_id with
  | none =>
      simp only [chat_resolve, hid]
      exact ⟨_, _, rfl, (process_chat_eph_counts ..).trans rfl,
        process_chat_limit_reached ..⟩
  | some raw =>
      cases raw with
      | malformed r =>
          simp only [chat_resolve, hid]
          exact ⟨_, _, rfl, (process_chat_eph_counts ..).trans rfl,
            process_chat_limit_reached ..⟩
      | valid cid =>
          by_cases hmsgs : get_anonymous_chat_messages st.eph s cid = []
          · simp only [chat_resolve, hid, handle_existing_chat, Option.getD_some]
            rw [if_pos hmsgs]
            exact ⟨_, _, rfl, (process_chat_eph_counts ..).trans rfl,
              process_chat_limit_reached ..⟩
          · simp only [chat_resolve, hid, handle_existing_chat, Option.getD_some]
            rw [if_neg hmsgs]
            exact ⟨_, _, rfl, (process_chat_eph_counts ..).trans rfl,
              process_chat_limit_reached ..⟩

/-! ### Concrete fixtures for witnesses and counterexamples -/

/-- A concrete oracle environment for witness evaluations. -/
def cEnv : Env :=
  { count_tokens := String.length
    title_chain := fun m => "Title: " ++ m
    summary_chain := fun h => "Summary of " ++ h
    rag_chain := fun input hist _atts =>
      { answer := "Answer to " ++ input ++ " with " ++ toString hist.length,
        context := [{ metadata := [("source", "https://djetlawyer.com/a")] },
                    { metadata := [("page", "3")] }] }
    doc_summary := fun _ t => .ok ("DocSummary " ++ t)
    image_description := fun _ _ => .error "no vision"
    audio_transcription := fun _ _ => .ok "AudioText"
    read_document := fun p => .ok ("Text of " ++ p)
    encode_file_to_base64 := fun p => "b64 " ++ p }

/-- An empty durable database. -/
def emptyDB : DB := { chats := [], messages := [], attachments := [], usage := [] }

/-- An empty ephemeral store. -/
def emptyEph : Ephemeral := { counts := fun _ => 0, chats := fun _ _ => [] }

/-- A fresh state: empty stores, id supply at 100. -/
def cSt : St := { db := emptyDB, eph := emptyEph, next_id := 100 }

/-! ### C1: anonymous rate limiting -/

/-- C1: For every chat request from an anonymous actor whose session
identifier is present: if the session's stored message counter is at
least 5, the request returns a terminal response with
`limit_reached = true` and the counter (indeed the whole state) is not
incremented; if the counter is below 5, the counter is incremented
exactly once before resolution proceeds and the eventual response has
`limit_reached = false`. -/
theorem c1_anonymous_rate_limit (env : Env) (st : St) (s : String) (req : ChatRequest)
    (hs : s ≠ "") :
    (5 ≤ get_anonymous_message_count st.eph s →
      chat_endpoint env st none (some s) req = (st, .ok limit_response) ∧
      limit_response.limit_reached = true) ∧
    (get_anonymous_message_count st.eph s < 5 →
      ∃ st2 resp, chat_endpoint env st none (some s) req = (st2, .ok resp) ∧
        get_anonymous_message_count st2.eph s
          = get_anonymous_message_count st.eph s + 1 ∧
        resp.limit_reached = false) := by
  have hv : header_value (some s) = some s := by simp [header_value, hs]
  constructor
  · intro h
    refine ⟨?_, rfl⟩
    unfold chat_endpoint chat_body
    rw [hv]
    simp only [if_pos h]
  · intro h
    set st1 : St := { st with eph := increment_anonymous_message_count st.eph s } with hst1
    obtain ⟨st2, resp, heq, hcounts, hlim⟩ := chat_resolve_anon env st1 s req
    refine ⟨st2, resp, ?_, ?_, hlim⟩
    · unfold chat_endpoint chat_body
      rw [hv]
      simp only [if_neg (Nat.not_le.mpr h)]
      rw [← hst1, heq]
    · show st2.eph.counts s = st.eph.counts s + 1
      rw [hcounts, hst1]
      simp [increment_anonymous_message_count, get_anonymous_message_count]

/-- Witness for C1 at a concrete fresh session (counter 0 < 5). -/
theorem c1_anonymous_rate_limit_witness :
    ∃ st2 resp,
      chat_endpoint cEnv cSt none (some "S1")
        { message := "Hello", chat_id := none } = (st2, .ok resp) ∧
      get_anonymous_message_count st2.eph "S1"
        = get_anonymous_message_count cSt.eph "S1" + 1 ∧
      resp.limit_reached = false :=
  (c1_anonymous_rate_limit cEnv cSt "S1"
    { message := "Hello", chat_id := none } (by decide)).2 (by decide)

/-! ### C5: not-found for unowned chats -/

/-- C5: For every request by an authenticated actor carrying a
well-formed chat id and no anonymous-session header, if no durable chat
with that id exists or the chat's owner is not the actor, resolution
fails with the not-found condition (`404, "Chat not found"`), the
request is terminal (the endpoint surfaces the failure, its catch-all
handler re-wrapping it as a 500 whose detail preserves the not-found
message), and the state is returned unchanged: no side effect. -/
theorem c5_unowned_chat_not_found (env : Env) (st : St) (uid cid : Nat)
    (req : ChatRequest) (hid : req.chat_id = some (.valid cid))
    (h : get_chat st.db cid = none ∨
         ∃ c, get_chat st.db cid = some c ∧ c.user_id ≠ some uid) :
    handle_existing_chat env st (some uid) none req.message cid
      = .error { status := 404, detail := "Chat not found" } ∧
    chat_endpoint env st (some uid) none req
      = (st, .error { status := 500, detail := "404: Chat not found" }) := by
  have h1 : handle_existing_chat env st (some uid) none req.message cid
      = .error { status := 404, detail := "Chat not found" } := by
    unfold handle_existing_chat
    rcases h with hnone | ⟨c, hc, hne⟩
    · rw [hnone]
    · rw [hc]
      simp only [if_neg hne]
  refine ⟨h1, ?_⟩
  unfold chat_endpoint chat_body chat_resolve
  rw [hid]
  simp only [header_value]
  rw [h1]
  rfl

/-- Witness for C5: a user referencing a chat id absent from the store. -/
theorem c5_unowned_chat_not_found_witness :
    handle_existing_chat cEnv cSt (some 7) none "Hi" 3
      = .error { status := 404, detail := "Chat not found" } ∧
    chat_endpoint cEnv cSt (some 7) none
      { message := "Hi", chat_id := some (.valid 3) }
      = (cSt, .error { status := 500, detail := "404: Chat not found" }) :=
  c5_unowned_chat_not_found cEnv cSt 7 3
    { message := "Hi", chat_id := some (.valid 3) } rfl (Or.inl rfl)

/-! ### C3: token-budgeted history -/

/-- C3: For every message history, if the sum of token counts over the
messages' content fields is at most 1500, the history passed to the
generation service is the original history — one entry per message, same
content, same order; if the sum exceeds 1500, the passed history is
exactly one synthetic summary message produced by the summarizer. -/
theorem c3_token_budget (env : Env) (messages : List Msg) :
    (sum_tokens env messages ≤ 1500 →
      (prepare_chat_history env messages).map LCMsg.content
        = messages.map Msg.content ∧
      (prepare_chat_history env messages).length = messages.length) ∧
    (1500 < sum_tokens env messages →
      prepare_chat_history env messages
        = [LCMsg.human ("Chat history summary: "
            ++ summarize_chat_history env messages)]) := by
  constructor
  · intro h
    have hne : ¬ 1500 < sum_tokens env messages := Nat.not_lt.mpr h
    unfold prepare_chat_history
    simp only [if_neg hne]
    constructor
    · rw [List.map_map]
      apply List.map_congr_left
      intro m _
      simp only [Function.comp_apply]
      split
      · rfl
      · split <;> rfl
    · rw [List.length_map]
  · intro h
    unfold prepare_chat_history
    simp only [if_pos h]

/-- Witness for C3 on a short two-message history (6 + 5 tokens ≤ 1500
with the length tokenizer). -/
theorem c3_token_budget_witness :
    (prepare_chat_history cEnv
        [{ role := "human", content := "Hello." },
         { role := "assistant", content := "Hi...." }]).map LCMsg.content
      = [("Hello." : String), "Hi...."] ∧
    (prepare_chat_history cEnv
        [{ role := "human", content := "Hello." },
         { role := "assistant", content := "Hi...." }]).length = 2 :=
  (c3_token_budget cEnv
    [{ role := "human", content := "Hello." },
     { role := "assistant", content := "Hi...." }]).1 (by decide)

/-! ### C7: sources derivation -/

/-- C7: For every generation result, the derived sources list contains
exactly one entry per context document, in document order, where each
entry's url equals that document's metadata `source` value, or
`"Unknown"` when the `source` key is absent; no entry is ever omitted. -/
theorem c7_sources_one_per_document (context : List Doc) :
    (extract_sources context).length = context.length ∧
    ∀ i (h1 : i < context.length) (h2 : i < (extract_sources context).length),
      ((extract_sources context).get ⟨i, h2⟩).url
        = ((context.get ⟨i, h1⟩).metadata.lookup "source").getD "Unknown" := by
  constructor
  · simp [extract_sources]
  · intro i h1 h2
    simp [extract_sources]

/-- Witness for C7 on a two-document context: one with a source, one
without. -/
theorem c7_sources_one_per_document_witness :
    (extract_sources [{ metadata := [("source", "https://x")] },
                      { metadata := [] }]).length = 2 ∧
    ((extract_sources [{ metadata := [("source", "https://x")] },
                       { metadata := [] }]).get ⟨1, by decide⟩).url
      = (((([{ metadata := [("source", "https://x")] },
             { metadata := [] }] : List Doc).get ⟨1, by decide⟩).metadata.lookup
            "source").getD "Unknown") :=
  ⟨(c7_sources_one_per_document _).1,
   (c7_sources_one_per_document
      [{ metadata := [("source", "https://x")] }, { metadata := [] }]).2
     1 (by decide) (by decide)⟩

/-! ### C6: usage recording -/

/-- C6: For every successfully generated exchange, if the actor is
authenticated, exactly one `TokenUsage` record is appended, whose token
count equals tokens(input message) + tokens(answer) + tokens(bounded
history), where the input message is the user message as submitted to
generation (augmented with attachment summaries when present) and the
bounded history is the prepared (post-budgeting) history; if the actor
is anonymous, no usage record is appended. -/
theorem c6_usage_recording (env : Env) (st : St) (cu : Option Nat) (sid : String)
    (chat : ChatObj) (messages : List Msg) (message : String)
    (atts : List AttachmentData) :
    (∀ uid, cu = some uid →
      (process_chat env st cu sid chat messages message atts).1.db.usage
        = st.db.usage ++
          [{ user_id := uid,
             tokens_used :=
               env.count_tokens
                 (augment_message message (attachment_results env st.db atts).2.1)
               + env.count_tokens
                 ((env.rag_chain
                     (augment_message message (attachment_results env st.db atts).2.1)
                     (prepare_chat_history env messages)
                     (attachment_results env st.db atts).1).answer)
               + sum_lc_tokens env (prepare_chat_history env messages) }]) ∧
    (cu = none →
      (process_chat env st cu sid chat messages message atts).1.db.usage
        = st.db.usage) := by
  constructor
  · intro uid hcu
    subst hcu
    rfl
  · intro hcu
    subst hcu
    rfl

/-- Witness for C6: an authenticated exchange with no attachments
appends one usage record totalling the three token counts. -/
theorem c6_usage_recording_witness :
    (process_chat cEnv cSt (some 7) "" (.anon 42)
        [{ role := "human", content := "Q" }] "Hello" []).1.db.usage
      = cSt.db.usage ++
        [{ user_id := 7,
           tokens_used :=
             cEnv.count_tokens
               (augment_message "Hello" (attachment_results cEnv cSt.db []).2.1)
             + cEnv.count_tokens
               ((cEnv.rag_chain
                   (augment_message "Hello" (attachment_results cEnv cSt.db []).2.1)
                   (prepare_chat_history cEnv [{ role := "human", content := "Q" }])
                   (attachment_results cEnv cSt.db []).1).answer)
             + sum_lc_tokens cEnv
                 (prepare_chat_history cEnv [{ role := "human", content := "Q" }]) }] :=
  (c6_usage_recording cEnv cSt (some 7) "" (.anon 42)
    [{ role := "human", content := "Q" }] "Hello" []).1 7 rfl

/-! ### C9: per-attachment fault isolation -/

/-- C9: A failure affecting one attachment never aborts the remaining
attachments or the request: a reference whose stored record is missing
is skipped (processing the rest is unchanged), and a summary-generation
or text-extraction failure degrades to the kind-specific placeholder
description string in place of the failed content. -/
theorem c9_attachment_fault_isolation (env : Env) (db : DB) :
    (∀ (a : AttachmentData) (rest : List AttachmentData),
      db.attachments.find? (fun r => r.id = a.id) = none →
      process_attachments env db (a :: rest) = process_attachments env db rest) ∧
    (∀ file_name text e, env.doc_summary file_name text = .error e →
      generate_attachment_summary env (.document file_name text)
        = "Document '" ++ file_name ++ "' (unable to generate summary)") ∧
    (∀ file_name data e, env.image_description file_name data = .error e →
      generate_attachment_summary env (.image file_name data)
        = "Image '" ++ file_name ++ "' (unable to generate description)") ∧
    (∀ file_name data e, env.audio_transcription file_name data = .error e →
      generate_attachment_summary env (.audio file_name data)
        = "Audio file '" ++ file_name ++ "' (audio processing not available)") ∧
    (∀ file_path e, env.read_document file_path = .error e →
      extract_text_from_document env file_path
        = "[Error extracting text from document]") := by
  refine ⟨?_, ?_, ?_, ?_, ?_⟩
  · intro a rest hmissing
    simp only [process_attachments, List.foldl_cons, process_attachment_step, hmissing]
  · intro file_name text e h
    simp only [generate_attachment_summary, h]
  · intro file_name data e h
    simp only [generate_attachment_summary, h]
  · intro file_name data e h
    simp only [generate_attachment_summary, h]
  · intro file_path e h
    simp only [extract_text_from_document, h]

/-- Witness for C9: a dangling reference is skipped and a failing image
description degrades to its placeholder, under the concrete fixtures. -/
theorem c9_attachment_fault_isolation_witness :
    process_attachments cEnv emptyDB
        [{ id := 5, file_name := "a.pdf", file_type := "application/pdf",
           file_size := 10 }]
      = process_attachments cEnv emptyDB [] ∧
    generate_attachment_summary cEnv (.image "p.png" (Block.image_url "u"))
      = "Image '" ++ "p.png" ++ "' (unable to generate description)" :=
  ⟨(c9_attachment_fault_isolation cEnv emptyDB).1
      { id := 5, file_name := "a.pdf", file_type := "application/pdf",
        file_size := 10 } [] rfl,
   (c9_attachment_fault_isolation cEnv emptyDB).2.2.1
      "p.png" (Block.image_url "u") "no vision" rfl⟩

/-! ### C10: persisted human message carries the attachment summaries -/

/-- C10: Whenever attachment summaries are generated for a turn, the
human message persisted (durably or ephemerally) has content equal to
the user's message with `"\n\nAttachment summaries:\n"` and the
generated summaries appended, and the token count attributed to the
user message in the usage record is that of the augmented content. -/
theorem c10_augmented_message_persisted (env : Env) (st : St) (cu : Option Nat)
    (sid : String) (chat : ChatObj) (messages : List Msg) (message : String)
    (atts : List AttachmentData)
    (hne : (attachment_results env st.db atts).2.1 ≠ []) :
    (∀ uid, cu = some uid →
      ∃ am : DMsg,
        (process_chat env st cu sid chat messages message atts).1.db.messages
          = st.db.messages ++
            [{ id := st.next_id, chat_id := chat.get_chat_id, role := "human",
               content := message ++ "\n\nAttachment summaries:\n"
                 ++ String.intercalate "\n" (attachment_results env st.db atts).2.1,
               sources := none }, am] ∧
        am.role = "assistant" ∧
        (process_chat env st cu sid chat messages message atts).1.db.usage
          = st.db.usage ++
            [{ user_id := uid,
               tokens_used :=
                 env.count_tokens (message ++ "\n\nAttachment summaries:\n"
                   ++ String.intercalate "\n" (attachment_results env st.db atts).2.1)
                 + env.count_tokens am.content
                 + sum_lc_tokens env (prepare_chat_history env messages) }]) ∧
    (cu = none →
      ∃ hm am : Msg,
        get_anonymous_chat_messages
          (process_chat env st cu sid chat messages message atts).1.eph
          sid chat.get_chat_id
          = messages ++ [hm, am] ∧
        hm.role = "human" ∧
        hm.content = message ++ "\n\nAttachment summaries:\n"
          ++ String.intercalate "\n" (attachment_results env st.db atts).2.1 ∧
        am.role = "assistant") := by
  have haug : augment_message message (attachment_results env st.db atts).2.1
      = message ++ "\n\nAttachment summaries:\n"
        ++ String.intercalate "\n" (attachment_results env st.db atts).2.1 := by
    rw [augment_message, if_pos hne]
  constructor
  · intro uid hcu
    subst hcu
    refine ⟨{ id := st.next_id + 1, chat_id := chat.get_chat_id, role := "assistant",
              content := (env.rag_chain
                (augment_message message (attachment_results env st.db atts).2.1)
                (prepare_chat_history env messages)
                (attachment_results env st.db atts).1).answer,
              sources := some (extract_sources (env.rag_chain
                (augment_message message (attachment_results env st.db atts).2.1)
                (prepare_chat_history env messages)
                (attachment_results env st.db atts).1).context) }, ?_, rfl, ?_⟩
    · rw [← haug]
      exact List.append_assoc _ _ _
    · rw [← haug]
      rfl
  · intro hcu
    subst hcu
    refine ⟨{ role := "human",
              content := augment_message message (attachment_results env st.db atts).2.1,
              sources := none,
              attachments :=
                if ((attachment_results env st.db atts).2.2.map (fun a =>
                  ({ id := toString a.id, file_name := a.file_name,
                     file_type := a.file_type, file_size := a.file_size } : AttMeta))) ≠ []
                then some ((attachment_results env st.db atts).2.2.map (fun a =>
                  ({ id := toString a.id, file_name := a.file_name,
                     file_type := a.file_type, file_size := a.file_size } : AttMeta)))
                else none },
            { role := "assistant",
              content := (env.rag_chain
                (augment_message message (attachment_results env st.db atts).2.1)
                (prepare_chat_history env messages)
                (attachment_results env st.db atts).1).answer,
              sources := some (extract_sources (env.rag_chain
                (augment_message message (attachment_results env st.db atts).2.1)
                (prepare_chat_history env messages)
                (attachment_results env st.db atts).1).context),
              attachments := none }, ?_, rfl, haug, rfl⟩
    show (if sid = sid ∧ chat.get_chat_id = chat.get_chat_id then _ else _) = _
    rw [if_pos ⟨rfl, rfl⟩]

/-- Witness for C10: an anonymous turn with one resolved text document
attachment stores the augmented human message. -/
theorem c10_augmented_message_persisted_witness :
    ∃ hm am : Msg,
      get_anonymous_chat_messages
        (process_chat cEnv
          { cSt with db := { emptyDB with attachments :=
              [{ id := 5, file_name := "a.txt", file_type := "text/plain",
                 file_path := "documents/a.txt", file_size := 9,
                 message_id := none }] } }
          none "S1" (.anon 42) [] "Hello"
          [{ id := 5, file_name := "a.txt", file_type := "text/plain",
             file_size := 9 }]).1.eph
        "S1" (ChatObj.anon 42).get_chat_id
        = [] ++ [hm, am] ∧
      hm.role = "human" ∧
      hm.content = "Hello" ++ "\n\nAttachment summaries:\n"
        ++ String.intercalate "\n"
          (attachment_results cEnv
            { emptyDB with attachments :=
              [{ id := 5, file_name := "a.txt", file_type := "text/plain",
                 file_path := "documents/a.txt", file_size := 9,
                 message_id := none }] }
            [{ id := 5, file_name := "a.txt", file_type := "text/plain",
               file_size := 9 }]).2.1 ∧
      am.role = "assistant" :=
  (c10_augmented_message_persisted cEnv
    { cSt with db := { emptyDB with attachments :=
        [{ id := 5, file_name := "a.txt", file_type := "text/plain",
           file_path := "documents/a.txt", file_size := 9,
           message_id := none }] } }
    none "S1" (.anon 42) [] "Hello"
    [{ id := 5, file_name := "a.txt", file_type := "text/plain",
       file_size := 9 }] (by decide)).2 rfl

/-! ### C2: migration preserves the anonymous messages -/

/-- The observable fields of a durable message row: role, content,
sources. -/
def dmsg_proj (m : DMsg) : String × String × Option (List Source) :=
  (m.role, m.content, m.sources)

/-- The observable fields of an ephemeral message: role, content,
sources. -/
def msg_proj (m : Msg) : String × String × Option (List Source) :=
  (m.role, m.content, m.sources)

/-- Appending one durable message extends the chat's message list by
exactly that row. -/
lemma get_chat_messages_add_message (st : St) (cid : Nat) (r c : String)
    (so : Option (List Source)) :
    get_chat_messages ((add_message st cid r c so).2).db cid
      = get_chat_messages st.db cid
        ++ [{ id := st.next_id, chat_id := cid, role := r, content := c,
              sources := so }] := by
  simp [add_message, get_chat_messages, List.filter_append]

/-- Replaying a message list appends exactly its role/content/sources
projections, in order. -/
lemma get_chat_messages_add_messages (msgs : List Msg) (st : St) (cid : Nat) :
    (get_chat_messages (add_messages st cid msgs).db cid).map dmsg_proj
      = (get_chat_messages st.db cid).map dmsg_proj ++ msgs.map msg_proj := by
  induction msgs generalizing st with
  | nil => simp [add_messages]
  | cons m ms ih =>
      have hstep : add_messages st cid (m :: ms)
          = add_messages ((add_message st cid m.role m.content m.sources).2) cid ms := rfl
      rw [hstep, ih, get_chat_messages_add_message]
      simp [dmsg_proj, msg_proj]

/-- C2: For every anonymous message list found under
(session-id, chat-id) during migration (case 5), after replay the
durable message list of the newly created chat equals the anonymous
message list: same length, same order, and at each position the same
role, content and sources. -/
theorem c2_migration_message_fidelity (env : Env) (st : St) (uid cid : Nat)
    (s m : String)
    (hanon : get_anonymous_chat_messages st.eph s cid ≠ [])
    (hchat : get_chat st.db cid = none ∨
             ∃ c, get_chat st.db cid = some c ∧ c.user_id ≠ some uid)
    (hnomsg : get_chat_messages st.db cid = []) :
    ((transfer_anonymous_chat env st uid m cid s).2.2.1).map dmsg_proj
      = (get_anonymous_chat_messages st.eph s cid).map msg_proj ∧
    (transfer_anonymous_chat env st uid m cid s).2.2.2 = true := by
  have hcreate : ∀ t, get_chat_messages
      ((create_chat st uid t (some cid)).2).db cid = get_chat_messages st.db cid :=
    fun _ => rfl
  have hbody : (transfer_anonymous_chat env st uid m cid s).2.2
      = ((get_chat_messages (add_messages
            ((create_chat st uid (transfer_title
              (get_anonymous_chat_messages st.eph s cid)) (some cid)).2) cid
            (get_anonymous_chat_messages st.eph s cid)).db cid), true) := by
    rcases hchat with hnone | ⟨c, hc, hne2⟩
    · simp only [transfer_anonymous_chat, hnone]
      rw [if_pos hanon]
      rfl
    · simp only [transfer_anonymous_chat, hc]
      rw [if_neg hne2, if_pos hanon]
      rfl
  rw [hbody]
  refine ⟨?_, rfl⟩
  rw [get_chat_messages_add_messages, hcreate, hnomsg]
  simp

/-- Witness for C2: a two-message anonymous chat (human question,
assistant answer with a source) migrated into an empty database. -/
theorem c2_migration_message_fidelity_witness :
    ((transfer_anonymous_chat cEnv
        { cSt with eph := { emptyEph with chats := fun s c =>
            if s = "S1" ∧ c = 42 then
              [{ role := "human", content := "What is force majeure?" },
               { role := "assistant", content := "A clause...",
                 sources := some [{ url := "https://djetlawyer.com/fm" }] }]
            else [] } }
        7 "m" 42 "S1").2.2.1).map dmsg_proj
      = (get_anonymous_chat_messages
          { emptyEph with chats := fun s c =>
            if s = "S1" ∧ c = 42 then
              [{ role := "human", content := "What is force majeure?" },
               { role := "assistant", content := "A clause...",
                 sources := some [{ url := "https://djetlawyer.com/fm" }] }]
            else [] } "S1" 42).map msg_proj ∧
    (transfer_anonymous_chat cEnv
        { cSt with eph := { emptyEph with chats := fun s c =>
            if s = "S1" ∧ c = 42 then
              [{ role := "human", content := "What is force majeure?" },
               { role := "assistant", content := "A clause...",
                 sources := some [{ url := "https://djetlawyer.com/fm" }] }]
            else [] } }
        7 "m" 42 "S1").2.2.2 = true :=
  c2_migration_message_fidelity cEnv
    { cSt with eph := { emptyEph with chats := fun s c =>
        if s = "S1" ∧ c = 42 then
          [{ role := "human", content := "What is force majeure?" },
           { role := "assistant", content := "A clause...",
             sources := some [{ url := "https://djetlawyer.com/fm" }] }]
        else [] } }
    7 42 "S1" "m" (by decide) (Or.inl rfl) rfl

/-! ### C4: migration chat id and title -/

/-- Modelled from the spec's words for the C4 comparison: a title taken
from the first human-role anonymous message (first 30 characters plus
an ellipsis), falling back to "Transferred from anonymous chat" when no
human-role message supplies a title.  This is the claimed behaviour,
not the code's. -/
def spec_claimed_transfer_title (anon_messages : List Msg) : String :=
  match anon_messages.find? (fun m => m.role = "human") with
  | some m => m.content.take 30 ++ "..."
  | none => "Transferred from anonymous chat"

/-- An ephemeral store whose (S1, 1) record starts with an
assistant-role message followed by a human-role one. -/
def c4_eph : Ephemeral :=
  { emptyEph with chats := fun s c =>
      if s = "S1" ∧ c = 1 then
        [{ role := "assistant", content := "X" },
         { role := "human", content := "Hello" }]
      else [] }

/-- Counterexample to C4 as stated: migrating an anonymous record whose
first message is assistant-role but which contains a later human-role
message ("Hello") titles the new chat with the fallback, not with
"Hello..." as the claim's "first human-role anonymous message" rule
requires. -/
theorem c4_title_counterexample :
    get_chat (transfer_anonymous_chat cEnv { cSt with eph := c4_eph }
        7 "m" 1 "S1").1.db 1
      = some { id := 1, user_id := some 7,
               title := "Transferred from anonymous chat" } ∧
    spec_claimed_transfer_title (get_anonymous_chat_messages c4_eph "S1" 1)
      = "Hello..." ∧
    ("Transferred from anonymous chat" : String)
      ≠ spec_claimed_transfer_title (get_anonymous_chat_messages c4_eph "S1" 1) :=
  ⟨rfl, rfl, by decide⟩

/-- Lemma: replaying messages does not touch the chat table. -/
lemma get_chat_add_messages (msgs : List Msg) (st : St) (cid x : Nat) :
    get_chat (add_messages st cid msgs).db x = get_chat st.db x := by
  induction msgs generalizing st with
  | nil => rfl
  | cons m ms ih =>
      have hstep : add_messages st cid (m :: ms)
          = add_messages ((add_message st cid m.role m.content m.sources).2) cid ms := rfl
      rw [hstep, ih]
      rfl

/-- C4 (amended): In the migration procedure, when anonymous messages
exist and no durable chat occupies the requested id, the new durable
chat is created under the requested chat id; it is titled with the
first 30 characters of the *first* anonymous message plus an ellipsis
when that first message has role `human`, and with the fallback
"Transferred from anonymous chat" otherwise — even when a human-role
message occurs later in the list. -/
theorem c4_migration_id_and_title (env : Env) (st : St) (uid cid : Nat)
    (s m0 : String)
    (hanon : get_anonymous_chat_messages st.eph s cid ≠ [])
    (hchat : get_chat st.db cid = none) :
    get_chat (transfer_anonymous_chat env st uid m0 cid s).1.db cid
      = some { id := cid, user_id := some uid,
               title := transfer_title (get_anonymous_chat_messages st.eph s cid) } ∧
    ∀ m rest, get_anonymous_chat_messages st.eph s cid = m :: rest →
      transfer_title (get_anonymous_chat_messages st.eph s cid)
        = if m.role = "human" then m.content.take 30 ++ "..."
          else "Transferred from anonymous chat" := by
  constructor
  · have hbody : (transfer_anonymous_chat env st uid m0 cid s).1
        = add_messages
            ((create_chat st uid (transfer_title
              (get_anonymous_chat_messages st.eph s cid)) (some cid)).2) cid
            (get_anonymous_chat_messages st.eph s cid) := by
      simp only [transfer_anonymous_chat, hchat]
      rw [if_pos hanon]
      rfl
    rw [hbody, get_chat_add_messages]
    show (st.db.chats ++ [_]).find? _ = _
    rw [List.find?_append]
    simp only [get_chat] at hchat
    rw [hchat]
    simp
  · intro m rest h
    rw [h]
    rfl

/-- Witness for the amended C4 at the concrete assistant-first record:
the chat is created under id 1 with the fallback title. -/
theorem c4_migration_id_and_title_witness :
    get_chat (transfer_anonymous_chat cEnv { cSt with eph := c4_eph }
        7 "m" 1 "S1").1.db 1
      = some { id := 1, user_id := some 7,
               title := transfer_title (get_anonymous_chat_messages
                 { cSt with eph := c4_eph }.eph "S1" 1) } :=
  (c4_migration_id_and_title cEnv { cSt with eph := c4_eph } 7 1 "S1" "m"
    (by decide) rfl).1

/-! ### C8: anonymous lookup of a well-formed chat id -/

/-- C8: For every anonymous request carrying a well-formed chat id (and
passing the rate gate): if the ephemeral store holds messages under
(session-id, chat-id), those messages are used as history under the
supplied chat id — the response names that id and the stored record
grows by exactly the new human/assistant pair, the answer being
generated against the stored history; if it holds none, a fresh virtual
chat id (the next of the id supply) is allocated with empty history and
the supplied chat id is discarded — the record under the supplied id
stays empty. -/
theorem c8_anonymous_chat_id_lookup (env : Env) (st : St) (s : String) (cid : Nat)
    (req : ChatRequest) (hs : s ≠ "") (hid : req.chat_id = some (.valid cid))
    (hcount : get_anonymous_message_count st.eph s < 5) :
    (get_anonymous_chat_messages st.eph s cid ≠ [] →
      ∃ st2 resp, chat_endpoint env st none (some s) req = (st2, .ok resp) ∧
        resp.chat_id = toString cid ∧
        ∃ hm am : Msg,
          get_anonymous_chat_messages st2.eph s cid
            = get_anonymous_chat_messages st.eph s cid ++ [hm, am] ∧
          hm.role = "human" ∧ hm.content = req.message ∧
          am.role = "assistant" ∧
          am.content = (env.rag_chain req.message
            (prepare_chat_history env (get_anonymous_chat_messages st.eph s cid))
            []).answer) ∧
    (get_anonymous_chat_messages st.eph s cid = [] →
      ∃ st2 resp, chat_endpoint env st none (some s) req = (st2, .ok resp) ∧
        resp.chat_id = toString st.next_id ∧
        (∃ hm am : Msg,
          get_anonymous_chat_messages st2.eph s st.next_id = [hm, am] ∧
          hm.role = "human" ∧ hm.content = req.message) ∧
        (cid ≠ st.next_id →
          get_anonymous_chat_messages st2.eph s cid = [])) := by
  have hv : header_value (some s) = some s := by simp [header_value, hs]
  set st1 : St := { st with eph := increment_anonymous_message_count st.eph s }
    with hst1
  constructor
  · intro hne
    have hne1 : get_anonymous_chat_messages st1.eph s cid ≠ [] := hne
    have hhe : handle_existing_chat env st1 none (some s) req.message cid
        = .ok (st1, .anon cid, get_anonymous_chat_messages st1.eph s cid, false) := by
      unfold handle_existing_chat
      simp only [Option.getD_some]
      rw [if_neg hne1]
    have hend : chat_endpoint env st none (some s) req
        = ((process_chat env st1 none s (.anon cid)
             (get_anonymous_chat_messages st1.eph s cid) req.message []).1,
           .ok (process_chat env st1 none s (.anon cid)
             (get_anonymous_chat_messages st1.eph s cid) req.message []).2) := by
      unfold chat_endpoint chat_body
      rw [hv]
      simp only [if_neg (Nat.not_le.mpr hcount)]
      rw [← hst1]
      unfold chat_resolve
      rw [hid]
      simp only [hhe]
      rfl
    refine ⟨_, _, hend, rfl, ?_⟩
    refine ⟨{ role := "human", content := req.message },
      { role := "assistant",
        content := (env.rag_chain req.message
          (prepare_chat_history env (get_anonymous_chat_messages st.eph s cid))
          []).answer,
        sources := some (extract_sources (env.rag_chain req.message
          (prepare_chat_history env (get_anonymous_chat_messages st.eph s cid))
          []).context) }, ?_, rfl, rfl, rfl, rfl⟩
    show (if s = s ∧ cid = cid then _ else _) = _
    rw [if_pos ⟨rfl, rfl⟩]
    rfl
  · intro hempty
    have hempty1 : get_anonymous_chat_messages st1.eph s cid = [] := hempty
    have hhe : handle_existing_chat env st1 none (some s) req.message cid
        = .ok ((fresh_id st1).2, .anon (fresh_id st1).1, [], false) := by
      unfold handle_existing_chat
      simp only [Option.getD_some]
      rw [if_pos hempty1]
    have hend : chat_endpoint env st none (some s) req
        = ((process_chat env (fresh_id st1).2 none s (.anon (fresh_id st1).1)
             [] req.message []).1,
           .ok (process_chat env (fresh_id st1).2 none s (.anon (fresh_id st1).1)
             [] req.message []).2) := by
      unfold chat_endpoint chat_body
      rw [hv]
      simp only [if_neg (Nat.not_le.mpr hcount)]
      rw [← hst1]
      unfold chat_resolve
      rw [hid]
      simp only [hhe]
      rfl
    refine ⟨_, _, hend, rfl, ?_, ?_⟩
    · refine ⟨{ role := "human", content := req.message },
        { role := "assistant",
          content := (env.rag_chain req.message
            (prepare_chat_history env ([] : List Msg)) []).answer,
          sources := some (extract_sources (env.rag_chain req.message
            (prepare_chat_history env ([] : List Msg)) []).context) }, ?_, rfl, rfl⟩
      show (if s = s ∧ st.next_id = st.next_id then _ else _) = _
      rw [if_pos ⟨rfl, rfl⟩]
      rfl
    · intro hne2
      show (if s = s ∧ cid = st.next_id then _ else _) = _
      rw [if_neg (fun h => hne2 h.2)]
      exact hempty

/-- Witness for C8 at the empty store: the supplied id 55 is discarded
for the fresh virtual id 100. -/
theorem c8_anonymous_chat_id_lookup_witness :
    ∃ st2 resp,
      chat_endpoint cEnv cSt none (some "S1")
        { message := "Hello", chat_id := some (.valid 55) } = (st2, .ok resp) ∧
      resp.chat_id = toString cSt.next_id ∧
      (∃ hm am : Msg,
        get_anonymous_chat_messages st2.eph "S1" cSt.next_id = [hm, am] ∧
        hm.role = "human" ∧ hm.content = "Hello") ∧
      (55 ≠ cSt.next_id →
        get_anonymous_chat_messages st2.eph "S1" 55 = []) :=
  (c8_anonymous_chat_id_lookup cEnv cSt "S1" 55
    { message := "Hello", chat_id := some (.valid 55) }
    (by decide) rfl (by decide)).2 rfl

end DJet
